import Mathlib

/-!
# Shopify integration adapter: webhook verification, dedup, token cache

Shallow embedding of the core of the repository (webhook authenticity
verification, duplicate suppression, access-token acquisition and caching),
with theorems settling the spec's claims about it.

Bytes are modelled as `Nat` values in `0..255`; machine 32-bit words as `Nat`
reduced modulo `2^32` where overflow matters.  Python exceptions are modelled
with `Except PyErr`; Python `None` with `Option`.
-/

namespace Integration

/-! ## SHA-256 (FIPS 180-4)

The source calls `hashlib.sha256`; we embed the standard algorithm so that
`verify_shopify_webhook` is fully executable. -/

/-- Reduce to a 32-bit word. -/
def w32 (x : Nat) : Nat := x % 4294967296

/-- Right rotation of a 32-bit word by `n` bits. -/
def rotr32 (n x : Nat) : Nat := w32 ((x >>> n) ||| (x <<< (32 - n)))

/-- Bitwise complement of a 32-bit word. -/
def not32 (x : Nat) : Nat := x ^^^ 4294967295

def shaCh (x y z : Nat) : Nat := (x &&& y) ^^^ (not32 x &&& z)

def shaMaj (x y z : Nat) : Nat := (x &&& y) ^^^ (x &&& z) ^^^ (y &&& z)

def bigSigma0 (x : Nat) : Nat := rotr32 2 x ^^^ rotr32 13 x ^^^ rotr32 22 x

def bigSigma1 (x : Nat) : Nat := rotr32 6 x ^^^ rotr32 11 x ^^^ rotr32 25 x

def smallSigma0 (x : Nat) : Nat := rotr32 7 x ^^^ rotr32 18 x ^^^ (x >>> 3)

def smallSigma1 (x : Nat) : Nat := rotr32 17 x ^^^ rotr32 19 x ^^^ (x >>> 10)

/-- The 64 SHA-256 round constants. -/
def shaK : Array Nat := #[1116352408, 1899447441, 3049323471, 3921009573,
  961987163, 1508970993, 2453635748, 2870763221, 3624381080, 310598401,
  607225278, 1426881987, 1925078388, 2162078206, 2614888103, 3248222580,
  3835390401, 4022224774, 264347078, 604807628, 770255983, 1249150122,
  1555081692, 1996064986, 2554220882, 2821834349, 2952996808, 3210313671,
  3336571891, 3584528711, 113926993, 338241895, 666307205, 773529912,
  1294757372, 1396182291, 1695183700, 1986661051, 2177026350, 2456956037,
  2730485921, 2820302411, 3259730800, 3345764771, 3516065817, 3600352804,
  4094571909, 275423344, 430227734, 506948616, 659060556, 883997877,
  958139571, 1322822218, 1537002063, 1747873779, 1955562222, 2024104815,
  2227730452, 2361852424, 2428436474, 2756734187, 3204031479, 3329325298]

/-- The SHA-256 initial hash value. -/
def shaH0 : List Nat := [1779033703, 3144134277, 1013904242, 2773480762,
  1359893119, 2600822924, 528734635, 1541459225]

/-- Combine bytes into big-endian 32-bit words (4 bytes per word). -/
def bytesToWords : List Nat → List Nat
  | b0 :: b1 :: b2 :: b3 :: rest =>
      (b0 * 16777216 + b1 * 65536 + b2 * 256 + b3) :: bytesToWords rest
  | _ => []

/-- Serialise 32-bit words as big-endian bytes. -/
def wordsToBytes : List Nat → List Nat
  | [] => []
  | w :: rest =>
      ((w >>> 24) &&& 255) :: ((w >>> 16) &&& 255) :: ((w >>> 8) &&& 255) ::
        (w &&& 255) :: wordsToBytes rest

/-- The 8-byte big-endian encoding of a (length) value. -/
def beBytes8 (n : Nat) : List Nat :=
  [(n >>> 56) &&& 255, (n >>> 48) &&& 255, (n >>> 40) &&& 255,
   (n >>> 32) &&& 255, (n >>> 24) &&& 255, (n >>> 16) &&& 255,
   (n >>> 8) &&& 255, n &&& 255]

/-- Split a byte list into 64-byte blocks. -/
def shaBlocks (l : List Nat) : List (List Nat) :=
  if h : l = [] then []
  else
    l.take 64 :: shaBlocks (l.drop 64)
termination_by l.length
decreasing_by
  simp only [List.length_drop]
  have : 0 < l.length := List.length_pos.mpr h
  omega

/-- Message schedule: expand the 16 words of a block to 64 words. -/
def msgSchedule (block : List Nat) : Array Nat :=
  (List.range 48).foldl
    (fun ws _ =>
      let i := ws.size
      ws.push (w32 (smallSigma1 (ws.getD (i - 2) 0) + ws.getD (i - 7) 0 +
        smallSigma0 (ws.getD (i - 15) 0) + ws.getD (i - 16) 0)))
    block.toArray

/-- One SHA-256 compression round. -/
def shaRound (w : Array Nat) (st : Nat × Nat × Nat × Nat × Nat × Nat × Nat × Nat)
    (i : Nat) : Nat × Nat × Nat × Nat × Nat × Nat × Nat × Nat :=
  let (a, b, c, d, e, f, g, h) := st
  let t1 := w32 (h + bigSigma1 e + shaCh e f g + shaK.getD i 0 + w.getD i 0)
  let t2 := w32 (bigSigma0 a + shaMaj a b c)
  (w32 (t1 + t2), a, b, c, w32 (d + t1), e, f, g)

/-- Compress one 64-byte block (given as 16 words) into the running hash. -/
def compressBlock (hs : List Nat) (block : List Nat) : List Nat :=
  let w := msgSchedule block
  let h0 := hs.getD 0 0
  let h1 := hs.getD 1 0
  let h2 := hs.getD 2 0
  let h3 := hs.getD 3 0
  let h4 := hs.getD 4 0
  let h5 := hs.getD 5 0
  let h6 := hs.getD 6 0
  let h7 := hs.getD 7 0
  let fin := (List.range 64).foldl (shaRound w) (h0, h1, h2, h3, h4, h5, h6, h7)
  let (a, b, c, d, e, f, g, h) := fin
  [w32 (h0 + a), w32 (h1 + b), w32 (h2 + c), w32 (h3 + d),
   w32 (h4 + e), w32 (h5 + f), w32 (h6 + g), w32 (h7 + h)]

/-- SHA-256 padding: append `0x80`, zeros to 56 mod 64, and the bit length. -/
def shaPad (msg : List Nat) : List Nat :=
  msg ++ 128 :: List.replicate ((119 - msg.length % 64) % 64) 0 ++
    beBytes8 (msg.length * 8)

/-- SHA-256 of a byte sequence, as a 32-byte digest. -/
def sha256 (msg : List Nat) : List Nat :=
  wordsToBytes ((shaBlocks (shaPad msg)).foldl
    (fun hs b => compressBlock hs (bytesToWords b)) shaH0)

/-! ## HMAC-SHA256 (RFC 2104), as `hmac.new(key, data, hashlib.sha256)` -/

/-- HMAC-SHA256 with block size 64. -/
def hmac_sha256 (key msg : List Nat) : List Nat :=
  let k0 := if 64 < key.length then sha256 key else key
  let k := k0 ++ List.replicate (64 - k0.length) 0
  sha256 (k.map (fun b => b ^^^ 92) ++ sha256 (k.map (fun b => b ^^^ 54) ++ msg))

/-! ## Base64 encoding, as `base64.b64encode` -/

/-- The base64 alphabet. -/
def b64Alphabet : List Char :=
  "ABCDEFGHIJKLMNOPQRSTUVWXYZabcdefghijklmnopqrstuvwxyz0123456789+/".toList

/-- Character for a 6-bit group. -/
def b64Char (i : Nat) : Char := b64Alphabet.getD i 'A'

/-- Standard base64 encoding of a byte list, with `=` padding. -/
def b64encodeChars : List Nat → List Char
  | [] => []
  | [b1] =>
      [b64Char (b1 >>> 2), b64Char ((b1 &&& 3) <<< 4), '=', '=']
  | [b1, b2] =>
      [b64Char (b1 >>> 2), b64Char (((b1 &&& 3) <<< 4) ||| (b2 >>> 4)),
       b64Char ((b2 &&& 15) <<< 2), '=']
  | b1 :: b2 :: b3 :: rest =>
      b64Char (b1 >>> 2) :: b64Char (((b1 &&& 3) <<< 4) ||| (b2 >>> 4)) ::
        b64Char (((b2 &&& 15) <<< 2) ||| (b3 >>> 6)) :: b64Char (b3 &&& 63) ::
          b64encodeChars rest

/-- `base64.b64encode(..).decode("utf-8")`: the base64 string of a byte list. -/
def b64encode (bs : List Nat) : String := ⟨b64encodeChars bs⟩

/-! ## Python-level modelling -/

/-- The Python exceptions the modelled code can raise. -/
inductive PyErr where
  | typeError
  | valueError
  | attributeError
deriving DecidableEq, Repr

/-- Python truthiness of an optional string (`None` and `""` are falsy). -/
def pyTruthy : Option String → Bool
  | none => false
  | some s => !(s == "")

/-- Is a character ASCII (as `str.isascii` per code point)? -/
def charAscii (c : Char) : Bool := c.toNat ≤ 127

/-- Is every character of the string ASCII? -/
def strAscii (s : String) : Bool := s.toList.all charAscii

/-- UTF-8 bytes of an ASCII string (`str.encode("utf-8")`; the secrets and
signatures involved are ASCII, where this agrees with UTF-8). -/
def strBytes (s : String) : List Nat := s.toList.map Char.toNat

/-- `hmac.compare_digest(a, b)` where `a` is a `str` and `b` is the header
value (`None` or a `str`): raises `TypeError` when `b` is `None` or when
either string has a non-ASCII character; otherwise returns whether the two
strings are equal (the comparison is constant-time in CPython, which does not
change its value). -/
def compare_digest (a : String) (b : Option String) : Except PyErr Bool :=
  match b with
  | none => .error .typeError
  | some s =>
      if strAscii a && strAscii s then .ok (a == s) else .error .typeError

/-- `SHOPIFY_WEBHOOK_SECRET` from `config.py`. -/
def SHOPIFY_WEBHOOK_SECRET : String :=
  "688c024dbcf5f42f5424fc1b565488649a92ca433d5c9fccb61446b219f88a18"

/-- `verify_shopify_webhook(data, hmac_header)` from
`shopify/utils/shopify_router_utils.py` (identical in
`utils/shopify_router_utils.py`): base64 of the HMAC-SHA256 of the raw body
keyed by the webhook secret, compared to the header with
`hmac.compare_digest`.  The header is `Option String` because the FastAPI
routers declare it as `Header(None)`. -/
def verify_shopify_webhook (data : List Nat) (hmac_header : Option String) :
    Except PyErr Bool :=
  let digest := hmac_sha256 (strBytes SHOPIFY_WEBHOOK_SECRET) data
  let computed_hmac := b64encode digest
  compare_digest computed_hmac hmac_header

/-! ## Duplicate suppression (`is_duplicate_event`)

The module-level dict `processed_event_ids` is modelled as an insertion-ordered
association list from event id to the time it was recorded; `datetime.now()`
is an explicit `Nat` parameter (seconds). -/

/-- The dedup record set: `processed_event_ids`. -/
abbrev DedupState := List (String × Nat)

/-- Dict lookup `processed_event_ids.get(e)` / membership `e in ...`. -/
def lookup_evt (e : String) : DedupState → Option Nat
  | [] => none
  | (k, v) :: rest => if e = k then some v else lookup_evt e rest

/-- The retention window, `timedelta(hours=24)`, in seconds. -/
def WINDOW : Nat := 86400

/-- `is_duplicate_event(event_id)` from
`shopify/utils/shopify_router_utils.py`, with the current time and the dict
passed explicitly: if the id is already recorded, return `True` at once
(without sweeping); otherwise record it at the current time, then delete every
entry strictly older than 24 hours, and return `False`.  (With `Nat` times,
`current_time - t > WINDOW` is `WINDOW + t < now`.) -/
def is_duplicate_event (event_id : String) (now : Nat) (s : DedupState) :
    Bool × DedupState :=
  if (lookup_evt event_id s).isSome then
    (true, s)
  else
    let s1 := s ++ [(event_id, now)]
    (false, s1.filter (fun p => decide (now ≤ p.2 + WINDOW)))

/-- Run a sequence of `is_duplicate_event` calls (id, time), keeping the state. -/
def run_events (ops : List (String × Nat)) (s : DedupState) : DedupState :=
  ops.foldl (fun st p => (is_duplicate_event p.1 p.2 st).2) s

/-! ## Webhook intake (`product_created` router) -/

/-- Terminal states of one inbound webhook request. -/
inductive HandlerResult where
  | duplicateSkipped
  | unauthorized
  | accepted
  | serverError (e : PyErr)
deriving DecidableEq, Repr

/-- The `POST /products/create` handler `product_created` from
`routers/shopify_router/product_create.py` (the update/delete routers are
identical in structure): if the event-id header is truthy and
`is_duplicate_event` reports a duplicate, acknowledge with 200
(`duplicateSkipped`); then 401 (`unauthorized`) when the signature header is
falsy or verification fails; otherwise the payload is decoded and handed on
(`accepted`).  `is_duplicate_event` mutates the record set even on its
`False` branch, which the threaded state captures. -/
def product_created (hmac_header event_id : Option String) (body : List Nat)
    (now : Nat) (s : DedupState) : HandlerResult × DedupState :=
  let step :=
    if pyTruthy event_id then is_duplicate_event (event_id.getD "") now s
    else (false, s)
  if pyTruthy event_id && step.1 then (.duplicateSkipped, step.2)
  else if !(pyTruthy hmac_header) then (.unauthorized, step.2)
  else
    match verify_shopify_webhook body hmac_header with
    | .error e => (.serverError e, step.2)
    | .ok false => (.unauthorized, step.2)
    | .ok true => (.accepted, step.2)

/-! ## Access-token acquisition and caching

`requests.post` to the token endpoint is external: its responses are supplied
by an oracle `Nat → TokenResponse` indexed by how many token requests have
been issued so far, so issued requests are counted explicitly. -/

/-- One response of the token endpoint: its HTTP status and the two fields
the code reads from the JSON body (`.get` returns `None` when absent). -/
structure TokenResponse where
  status_code : Nat
  access_token : Option String
  expires_in : Option Nat
deriving DecidableEq, Repr

/-- The response handling of `get_access_token` (lines 29-42 of
`utils/shopify_utils.py`, identical in `shopify/services/shopify_services.py`):
on status 200 take the body's `access_token` and `expires_in` fields,
otherwise return `None` for both.  No exception is raised and no retry is
made. -/
def get_access_token_response (r : TokenResponse) : Option String × Option Nat :=
  if r.status_code == 200 then (r.access_token, r.expires_in) else (none, none)

/-- The mutable fields of a `ShopifyEngine` instance
(`self._access_token`, `self._access_token_expires_in`). -/
structure EngineState where
  access_token : Option String
  access_token_expires_in : Option Nat
deriving DecidableEq, Repr

/-- `ShopifyEngine.__init__`: both cache fields start as `None`. -/
def engineInit : EngineState := ⟨none, none⟩

/-- `ShopifyEngine._get_access_token` from `shopify/engine/shopify.py`
(identical in `shopify/connection_adapter/adapter.py`): when either cached
field is `None`, issue one token request (consuming `o n` and stepping the
request counter) and store the response's fields; otherwise do nothing. -/
def engine_get_access_token (o : Nat → TokenResponse) (n : Nat)
    (s : EngineState) : EngineState × Nat :=
  if s.access_token.isNone || s.access_token_expires_in.isNone then
    let creds := get_access_token_response (o n)
    (⟨creds.1, creds.2⟩, n + 1)
  else (s, n)

/-- `ShopifyEngine.list_products`: refresh the cache if needed, then send the
products request bearing the cached token (the third component is the
`X-Shopify-Access-Token` value sent). -/
def list_products (o : Nat → TokenResponse) (n : Nat) (s : EngineState) :
    EngineState × Nat × Option String :=
  let r := engine_get_access_token o n s
  (r.1, r.2, r.1.access_token)

/-- `ShopifyEngine.get_product`: same token handling as `list_products`. -/
def get_product (o : Nat → TokenResponse) (n : Nat) (s : EngineState) :
    EngineState × Nat × Option String :=
  let r := engine_get_access_token o n s
  (r.1, r.2, r.1.access_token)

/-- Run `list_products` at each listed (external) timestamp, returning the
time and the access token each operation sent.  The engine itself never reads
the clock. -/
def run_products (o : Nat → TokenResponse) :
    List Nat → EngineState → Nat → List (Nat × Option String)
  | [], _, _ => []
  | t :: ts, s, n =>
      let r := list_products o n s
      (t, r.2.2) :: run_products o ts r.1 r.2.1

/-! ## Credential resolution (`shopify/services/shopify_services.py`)

`get_client_integration` in `shopify/config.py` queries a database and
decrypts fields via `api.*` modules that are external collaborators; it is
modelled as a function from client id to an optional integration record
(post-decryption).  Everything below it is translated from the source. -/

/-- One row of the integration store, after decryption. -/
structure IntegrationRecord where
  store_url : Option String
  integration_key : Option String
  integration_secret : Option String
  webhook_secret : Option String

/-- The resolver backing `shopify/config.py`. -/
abbrev IntegrationStore := String → Option IntegrationRecord

/-- What `get_store_url` (in `shopify/config.py`) evaluates to: for an
unknown client it returns the dict `{"store_url": None}` (a non-empty, hence
truthy, dict), otherwise the stored value. -/
inductive StoreUrlVal where
  | notFoundDict
  | val (s : Option String)

/-- `get_store_url(client_id)` from `shopify/config.py`. -/
def get_store_url (db : IntegrationStore) (client_id : String) : StoreUrlVal :=
  match db client_id with
  | none => .notFoundDict
  | some c => .val c.store_url

/-- Python truthiness of `get_store_url`'s result. -/
def storeUrlTruthy : StoreUrlVal → Bool
  | .notFoundDict => true
  | .val none => false
  | .val (some s) => !(s == "")

/-- `get_client_credentials(client_id)` from `shopify/config.py`, as the pair
(`client_id` key, `client_secret` key) of the returned dict. -/
def get_client_credentials (db : IntegrationStore) (client_id : String) :
    Option String × Option String :=
  match db client_id with
  | none => (none, none)
  | some c => (c.integration_key, c.integration_secret)

/-- `get_access_token(client_id)` from
`shopify/services/shopify_services.py`, given the one token-endpoint response
the call would receive: raises `ValueError` when the resolved store URL is
falsy, or when the resolved client key or secret is falsy, in both cases
before any network request; otherwise issues the one request and applies the
response handling of `get_access_token_response`.  The second component
counts the network requests the call made. -/
def services_get_access_token (db : IntegrationStore) (client_id : String)
    (resp : TokenResponse) :
    Except PyErr (Option String × Option Nat) × Nat :=
  if !(storeUrlTruthy (get_store_url db client_id)) then (.error .valueError, 0)
  else
    let credentials := get_client_credentials db client_id
    if !(pyTruthy credentials.1) || !(pyTruthy credentials.2) then
      (.error .valueError, 0)
    else (.ok (get_access_token_response resp), 1)

/-- A token endpoint that always answers with a non-success status. -/
def oFail : Nat → TokenResponse := fun _ => ⟨500, none, none⟩

/-- A token endpoint that always answers 200 with token `"tok"` valid for 10
seconds. -/
def oOk : Nat → TokenResponse := fun _ => ⟨200, some "tok", some 10⟩

/-! ## Helper lemmas -/

lemma getD_mem_or_default (l : List Char) (i : Nat) (d : Char) :
    l.getD i d ∈ l ∨ l.getD i d = d := by
  induction l generalizing i with
  | nil => right; simp [List.getD]
  | cons a tl ih =>
      cases i with
      | zero => left; simp
      | succ j =>
          rcases ih j with h | h
          · left; simp only [List.getD_cons_succ]; exact List.mem_cons_of_mem a h
          · right; simpa using h

lemma charAscii_b64Char (i : Nat) : charAscii (b64Char i) = true := by
  have halph : ∀ c ∈ b64Alphabet, charAscii c = true := by decide
  rcases getD_mem_or_default b64Alphabet i 'A' with h | h
  · exact halph _ h
  · rw [b64Char, h]; decide

lemma b64encodeChars_ascii : ∀ bs, (b64encodeChars bs).all charAscii = true
  | [] => rfl
  | [b1] => by
      simp [b64encodeChars, charAscii_b64Char]; decide
  | [b1, b2] => by
      simp [b64encodeChars, charAscii_b64Char]; decide
  | b1 :: b2 :: b3 :: rest => by
      simp [b64encodeChars, charAscii_b64Char, b64encodeChars_ascii rest]

lemma strAscii_b64encode (bs : List Nat) : strAscii (b64encode bs) = true :=
  b64encodeChars_ascii bs

lemma lookup_evt_append_left {e : String} {t : Nat} {l : DedupState}
    (l' : DedupState) (h : lookup_evt e l = some t) :
    lookup_evt e (l ++ l') = some t := by
  induction l with
  | nil => simp [lookup_evt] at h
  | cons a tl ih =>
      rw [lookup_evt] at h
      by_cases he : e = a.1
      · simpa [lookup_evt, he] using h
      · rw [if_neg he] at h
        simpa [lookup_evt, he] using ih h

lemma lookup_evt_append_none {e : String} {l : DedupState} (l' : DedupState)
    (h : lookup_evt e l = none) :
    lookup_evt e (l ++ l') = lookup_evt e l' := by
  induction l with
  | nil => simp
  | cons a tl ih =>
      rw [lookup_evt] at h
      by_cases he : e = a.1
      · simp [he] at h
      · rw [if_neg he] at h
        simpa [lookup_evt, he] using ih h

lemma lookup_evt_filter_some {e : String} {t : Nat} {l : DedupState}
    {p : String × Nat → Bool} (h : lookup_evt e l = some t)
    (hp : p (e, t) = true) :
    lookup_evt e (l.filter p) = some t := by
  induction l with
  | nil => simp [lookup_evt] at h
  | cons a tl ih =>
      rw [lookup_evt] at h
      by_cases he : e = a.1
      · rw [if_pos he] at h
        injection h with h
        have : p a = true := by
          have : a = (e, a.2) := by rw [he]
          rw [this, h]; exact hp
        simp [List.filter, this, lookup_evt, he, h]
      · rw [if_neg he] at h
        rcases hpa : p a with _ | _
        · simpa [List.filter, hpa] using ih h
        · simpa [List.filter, hpa, lookup_evt, he] using ih h

lemma lookup_evt_filter_none {e : String} {l : DedupState}
    {p : String × Nat → Bool} (h : lookup_evt e l = none) :
    lookup_evt e (l.filter p) = none := by
  induction l with
  | nil => simp [List.filter, lookup_evt]
  | cons a tl ih =>
      rw [lookup_evt] at h
      by_cases he : e = a.1
      · simp [he] at h
      · rw [if_neg he] at h
        rcases hpa : p a with _ | _
        · simpa [List.filter, hpa] using ih h
        · simpa [List.filter, hpa, lookup_evt, he] using ih h

lemma lookup_evt_none_of_not_mem {e : String} {l : DedupState}
    (h : e ∉ l.map Prod.fst) : lookup_evt e l = none := by
  induction l with
  | nil => rfl
  | cons a tl ih =>
      simp only [List.map_cons, List.mem_cons, not_or] at h
      rw [lookup_evt, if_neg h.1]
      exact ih h.2

lemma lookup_evt_none_not_mem {e : String} {l : DedupState}
    (h : lookup_evt e l = none) : e ∉ l.map Prod.fst := by
  induction l with
  | nil => simp
  | cons a tl ih =>
      rw [lookup_evt] at h
      by_cases he : e = a.1
      · simp [he] at h
      · rw [if_neg he] at h
        simp only [List.map_cons, List.mem_cons, not_or]
        exact ⟨he, ih h⟩

lemma lookup_evt_filter_none_of_nodup {e : String} {t : Nat} {l : DedupState}
    {p : String × Nat → Bool} (hnd : (l.map Prod.fst).Nodup)
    (h : lookup_evt e l = some t) (hp : p (e, t) = false) :
    lookup_evt e (l.filter p) = none := by
  induction l with
  | nil => simp [lookup_evt] at h
  | cons a tl ih =>
      simp only [List.map_cons, List.nodup_cons] at hnd
      rw [lookup_evt] at h
      by_cases he : e = a.1
      · rw [if_pos he] at h
        injection h with h
        have hae : a = (e, t) := by
          rcases a with ⟨a1, a2⟩
          simp_all
        have hrest : lookup_evt e tl = none := by
          apply lookup_evt_none_of_not_mem
          rw [he]; exact hnd.1
        rw [hae, List.filter, hp]
        exact lookup_evt_filter_none hrest
      · rw [if_neg he] at h
        rcases hpa : p a with _ | _
        · simpa [List.filter, hpa] using ih hnd.2 h
        · simpa [List.filter, hpa, lookup_evt, he] using ih hnd.2 h

lemma is_duplicate_event_of_some {e : String} {t : Nat} {s : DedupState}
    (now : Nat) (h : lookup_evt e s = some t) :
    is_duplicate_event e now s = (true, s) := by
  rw [is_duplicate_event, if_pos (by rw [h]; rfl)]

lemma is_duplicate_event_of_none {e : String} {s : DedupState} (now : Nat)
    (h : lookup_evt e s = none) :
    is_duplicate_event e now s =
      (false, (s ++ [(e, now)]).filter (fun p => decide (now ≤ p.2 + WINDOW))) := by
  rw [is_duplicate_event, if_neg (by rw [h]; simp)]

/-- Any one `is_duplicate_event` call at a time within the window of a
recorded entry keeps that entry, at its original time. -/
lemma lookup_evt_preserved {e : String} {t : Nat} {s : DedupState}
    (f : String) (u : Nat) (h : lookup_evt e s = some t)
    (hu : u ≤ t + WINDOW) :
    lookup_evt e (is_duplicate_event f u s).2 = some t := by
  rcases hf : lookup_evt f s with _ | tf
  · rw [is_duplicate_event_of_none u hf]
    have hef : e ≠ f := fun hef => by rw [hef, hf] at h; exact Option.noConfusion h
    have h1 : lookup_evt e (s ++ [(f, u)]) = some t := lookup_evt_append_left _ h
    exact lookup_evt_filter_some h1 (by simpa using hu)
  · rw [is_duplicate_event_of_some u hf]
    exact h

/-- A recorded entry survives any run of calls whose times all stay within
its window. -/
lemma run_events_preserved {e : String} {t : Nat} :
    ∀ (ops : List (String × Nat)) (s : DedupState),
      lookup_evt e s = some t → (∀ q ∈ ops, q.2 ≤ t + WINDOW) →
      lookup_evt e (run_events ops s) = some t
  | [], s, h, _ => h
  | q :: ops, s, h, hops => by
      rw [run_events, List.foldl_cons]
      exact run_events_preserved ops _
        (lookup_evt_preserved q.1 q.2 h (hops q (List.mem_cons_self q ops)))
        (fun r hr => hops r (List.mem_cons_of_mem q hr))

/-! ## Claims -/

/-- Claim C2: `verify_shopify_webhook(body, sig)` returns `True` exactly when
`sig` is the base64 encoding of the HMAC-SHA256 digest of the raw body keyed
by the configured webhook secret; in particular the signature produced by
that same computation verifies. -/
theorem C2_verify_iff_signature (body : List Nat) (s : String) :
    (verify_shopify_webhook body (some s) = .ok true ↔
      s = b64encode (hmac_sha256 (strBytes SHOPIFY_WEBHOOK_SECRET) body))
    ∧ verify_shopify_webhook body
        (some (b64encode (hmac_sha256 (strBytes SHOPIFY_WEBHOOK_SECRET) body)))
      = .ok true := by
  have hA : strAscii (b64encode (hmac_sha256 (strBytes SHOPIFY_WEBHOOK_SECRET)
      body)) = true := strAscii_b64encode _
  constructor
  · by_cases hs : strAscii s = true
    · simp only [verify_shopify_webhook, compare_digest, hA, hs,
        Bool.and_self, if_true, Except.ok.injEq]
      rw [beq_iff_eq]
      exact ⟨fun h => h.symm, fun h => h.symm⟩
    · simp only [verify_shopify_webhook, compare_digest, hA,
        Bool.true_and, hs, if_neg Bool.false_ne_true]
      constructor
      · intro h; exact Except.noConfusion h
      · intro h; rw [h] at hs; exact (hs hA).elim
  · simp only [verify_shopify_webhook, compare_digest, hA, Bool.and_self,
      if_true, beq_self_eq_true]

/-- Claim C9, counterexample: calling the verifier with an absent (`None`)
signature raises a `TypeError` (from `hmac.compare_digest`) instead of
returning `False`, so `verify_shopify_webhook` does not treat every malformed
or absent signature as a boolean `False`. -/
theorem C9_none_signature_raises :
    verify_shopify_webhook [] none = .error .typeError := rfl

/-- Claim C9 as amended: for an ASCII signature string the verifier returns a
boolean, `True` exactly on an exact match (so any mismatch in length,
encoding, or content yields `False`); but a `None` signature, or a signature
containing a non-ASCII character, raises `TypeError` inside
`hmac.compare_digest` (the routers reject an absent header before calling the
verifier). -/
theorem C9_verify_total_on_ascii (body : List Nat) (s : String) :
    (strAscii s = true →
      verify_shopify_webhook body (some s) =
        .ok (b64encode (hmac_sha256 (strBytes SHOPIFY_WEBHOOK_SECRET) body) == s))
    ∧ (strAscii s = false →
      verify_shopify_webhook body (some s) = .error .typeError)
    ∧ verify_shopify_webhook body none = .error .typeError := by
  have hA : strAscii (b64encode (hmac_sha256 (strBytes SHOPIFY_WEBHOOK_SECRET)
      body)) = true := strAscii_b64encode _
  refine ⟨fun hs => ?_, fun hs => ?_, rfl⟩
  · simp only [verify_shopify_webhook, compare_digest, hA, hs, Bool.and_self,
      if_true]
  · simp only [verify_shopify_webhook, compare_digest, hA, Bool.true_and, hs,
      if_neg Bool.false_ne_true]

/-- Claim C1 (code bug): an inbound create-product request with a fresh event
id and an absent signature header ends in the Unauthorized state, yet
`is_duplicate_event` has already recorded the event id (the duplicate check
runs before signature verification), so a later delivery of the same event id
is skipped as a duplicate.  The claim says no dedup record may be written for
an unauthorized request. -/
theorem C1_unauthorized_creates_dedup_record :
    product_created none (some "evt-1") [] 0 [] =
      (HandlerResult.unauthorized, [("evt-1", 0)])
    ∧ (product_created none (some "evt-1") [] 5 [("evt-1", 0)]).1 =
      HandlerResult.duplicateSkipped := by
  constructor <;> rfl

/-- Claim C3: for an unrecorded event id, the first `is_duplicate_event` call
returns `False` and records the id at the current time, and every subsequent
call for that id within 24 hours of the first (with any intervening calls
also within that window) returns `True`. -/
theorem C3_first_records_then_duplicate (e : String) (t : Nat) (s : DedupState)
    (ops : List (String × Nat)) (t' : Nat)
    (h : lookup_evt e s = none)
    (hops : ∀ q ∈ ops, q.2 ≤ t + WINDOW)
    (ht' : t' ≤ t + WINDOW) :
    (is_duplicate_event e t s).1 = false
    ∧ lookup_evt e (is_duplicate_event e t s).2 = some t
    ∧ (is_duplicate_event e t'
        (run_events ops (is_duplicate_event e t s).2)).1 = true := by
  have hstep := is_duplicate_event_of_none (s := s) t h
  have hrec : lookup_evt e (is_duplicate_event e t s).2 = some t := by
    rw [hstep]
    refine lookup_evt_filter_some ?_ (by simp)
    rw [lookup_evt_append_none _ h]
    simp [lookup_evt]
  refine ⟨by rw [hstep], hrec, ?_⟩
  have hpres := run_events_preserved ops _ hrec hops
  rw [is_duplicate_event_of_some t' hpres]

/-- Claim C3, witness: event id `"a"` first seen at time 0, an unrelated
event at time 100, then `"a"` again at time 200. -/
theorem C3_first_records_then_duplicate_witness :
    (is_duplicate_event "a" 0 []).1 = false
    ∧ lookup_evt "a" (is_duplicate_event "a" 0 []).2 = some 0
    ∧ (is_duplicate_event "a" 200
        (run_events [("b", 100)] (is_duplicate_event "a" 0 []).2)).1 = true :=
  C3_first_records_then_duplicate "a" 0 [] [("b", 100)] 200 rfl
    (by decide) (by decide)

/-- When the cache is incomplete, `_get_access_token` stores the handled
response fields and counts one request. -/
lemma engine_step_of_incomplete (o : Nat → TokenResponse) (n : Nat)
    (s : EngineState)
    (hc : (s.access_token.isNone || s.access_token_expires_in.isNone) = true) :
    engine_get_access_token o n s =
      (⟨(get_access_token_response (o n)).1,
        (get_access_token_response (o n)).2⟩, n + 1) := by
  rw [engine_get_access_token, if_pos hc]

/-- When a cache field is `None`, `_get_access_token` counts one request. -/
lemma engine_count_of_incomplete (o : Nat → TokenResponse) (n : Nat)
    (s : EngineState)
    (h : s.access_token = none ∨ s.access_token_expires_in = none) :
    (engine_get_access_token o n s).2 = n + 1 := by
  have hc : (s.access_token.isNone || s.access_token_expires_in.isNone)
      = true := by rcases h with h | h <;> simp [h]
  rw [engine_step_of_incomplete o n s hc]

/-- Claim C4, counterexample: at time `WINDOW + 1` both recorded entries are
more than 24 hours old, yet the call with the recorded id `"e"` returns
`True` (the membership check precedes the sweep, which runs only on the miss
path) and removes nothing; the claim says every invocation removes stale
entries and that this call returns `False`. -/
theorem C4_stale_recorded_id_still_duplicate :
    is_duplicate_event "e" (WINDOW + 1) [("e", 0), ("old", 0)] =
      (true, [("e", 0), ("old", 0)]) := by decide

/-- Claim C4 as amended: the sweep runs only on invocations whose event id is
not yet recorded; such an invocation (here with fresh id `f`) removes every
entry more than 24 hours old, after which a call with the swept id `e`
returns `False` (treated as new).  A call with a recorded id returns `True`
regardless of elapsed time and removes nothing. -/
theorem C4_sweep_on_miss_only (e f : String) (t u v : Nat) (s : DedupState)
    (hnd : (s.map Prod.fst).Nodup)
    (he : lookup_evt e s = some t) (hf : lookup_evt f s = none)
    (hu : t + WINDOW < u) :
    is_duplicate_event e u s = (true, s)
    ∧ lookup_evt e (is_duplicate_event f u s).2 = none
    ∧ (is_duplicate_event e v (is_duplicate_event f u s).2).1 = false := by
  have h2 : lookup_evt e (is_duplicate_event f u s).2 = none := by
    rw [is_duplicate_event_of_none u hf]
    refine lookup_evt_filter_none_of_nodup ?_ (lookup_evt_append_left _ he) ?_
    · rw [List.map_append]
      simp only [List.map_cons, List.map_nil]
      rw [List.nodup_append]
      refine ⟨hnd, List.nodup_singleton f, ?_⟩
      intro x hx hxf
      rw [List.mem_singleton] at hxf
      subst hxf
      exact lookup_evt_none_not_mem hf hx
    · simp only [decide_eq_false_iff_not, Nat.not_le]
      omega
  refine ⟨is_duplicate_event_of_some u he, h2, ?_⟩
  rw [is_duplicate_event_of_none v h2]

/-- Claim C4, witness: `"e"` recorded at time 0; a fresh event `"f"` at time
`WINDOW + 1` sweeps it out; `"e"` is then treated as new. -/
theorem C4_sweep_on_miss_only_witness :
    is_duplicate_event "e" (WINDOW + 1) [("e", 0)] = (true, [("e", 0)])
    ∧ lookup_evt "e" (is_duplicate_event "f" (WINDOW + 1) [("e", 0)]).2 = none
    ∧ (is_duplicate_event "e" (WINDOW + 2)
        (is_duplicate_event "f" (WINDOW + 1) [("e", 0)]).2).1 = false :=
  C4_sweep_on_miss_only "e" "f" 0 (WINDOW + 1) (WINDOW + 2) [("e", 0)]
    (by decide) (by decide) (by decide) (by decide)

/-- Claim C5, counterexample: when the first acquisition fails (non-success
response), the engine caches `None` for both fields, so the second
`_get_access_token` call issues another network request — the request counter
reaches 2, not 1 — contradicting "any second call issues zero additional
network requests". -/
theorem C5_second_call_retries_after_failure :
    (engine_get_access_token oFail
      (engine_get_access_token oFail 0 engineInit).2
      (engine_get_access_token oFail 0 engineInit).1).2 = 2 := by decide

/-- Claim C5 as amended: the first `_get_access_token` call of an engine
instance issues exactly one token request; provided that first response is a
success carrying both `access_token` and `expires_in`, a second call issues
no further request and leaves the same cached token.  The cache is a single
optional field per engine instance, so at most one token is cached. -/
theorem C5_token_cached_after_success (o : Nat → TokenResponse) (a : String)
    (d : Nat) (h : o 0 = ⟨200, some a, some d⟩) :
    (engine_get_access_token o 0 engineInit).2 = 1
    ∧ engine_get_access_token o 0 engineInit = (⟨some a, some d⟩, 1)
    ∧ engine_get_access_token o 1 ⟨some a, some d⟩ = (⟨some a, some d⟩, 1) := by
  refine ⟨?_, ?_, ?_⟩ <;>
    simp [engine_get_access_token, engineInit, get_access_token_response, h]

/-- Claim C5, witness: a successful first acquisition of token `"tok"`. -/
theorem C5_token_cached_after_success_witness :
    (engine_get_access_token oOk 0 engineInit).2 = 1
    ∧ engine_get_access_token oOk 0 engineInit = (⟨some "tok", some 10⟩, 1)
    ∧ engine_get_access_token oOk 1 ⟨some "tok", some 10⟩ =
      (⟨some "tok", some 10⟩, 1) :=
  C5_token_cached_after_success oOk "tok" 10 rfl

/-- Claim C6, counterexample: for a tenant unknown to the credential
resolver, `get_access_token` raises a `ValueError` — an exception, not an
explicit `MissingCredentials` failure value — though it does issue zero
network requests as the claim states. -/
theorem C6_unknown_tenant_raises :
    services_get_access_token (fun _ => none) "tenant-x"
      ⟨200, some "tok", some 3600⟩ = (.error .valueError, 0) := rfl

/-- Claim C6 as amended: for a tenant unknown to the resolver, or known with
a falsy client key or client secret, `get_access_token` raises `ValueError`
(there is no `MissingCredentials` value in the code) and makes no network
request. -/
theorem C6_missing_credentials_raise (db : IntegrationStore) (cid : String)
    (resp : TokenResponse)
    (h : db cid = none ∨ pyTruthy (get_client_credentials db cid).1 = false
       ∨ pyTruthy (get_client_credentials db cid).2 = false) :
    services_get_access_token db cid resp = (.error .valueError, 0) := by
  by_cases hsu : storeUrlTruthy (get_store_url db cid) = true
  · have hcred : pyTruthy (get_client_credentials db cid).1 = false
        ∨ pyTruthy (get_client_credentials db cid).2 = false := by
      rcases h with hdb | h | h
      · left; rw [get_client_credentials, hdb]; rfl
      · exact Or.inl h
      · exact Or.inr h
    rw [services_get_access_token, hsu]
    rcases hcred with hc | hc <;> simp [hc]
  · rw [services_get_access_token,
      if_pos (by rw [Bool.not_eq_true] at hsu; rw [hsu]; rfl)]

/-- Claim C6, witness: an unknown tenant id. -/
theorem C6_missing_credentials_raise_witness :
    services_get_access_token (fun _ => none) "t1" ⟨500, none, none⟩ =
      (.error .valueError, 0) :=
  C6_missing_credentials_raise (fun _ => none) "t1" ⟨500, none, none⟩
    (Or.inl rfl)

/-- Claim C7, counterexample: on a non-success token response the service
returns normally with `{"access_token": None, "expires_in": None}` — there is
no typed `AuthenticationFailed` outcome — and the engine overwrites its
cached state with those `None`s (here a previously cached token `"tok"` is
cleared, so the cached-token state is not unchanged). -/
theorem C7_nonsuccess_returns_ok_nones :
    services_get_access_token
      (fun _ => some ⟨some "shop.example.com", some "key", some "secret",
        some "whs"⟩) "12345" ⟨500, none, none⟩ = (.ok (none, none), 1)
    ∧ engine_get_access_token oFail 0 ⟨some "tok", none⟩ = (⟨none, none⟩, 1) := by
  constructor <;> rfl

/-- Claim C7 as amended: when the cache is incomplete, `_get_access_token`
issues exactly one request (no retry within the call); on a non-success
response the response handling yields `(None, None)` — the code's failure
representation, a normal return rather than a typed failure — so no token is
cached; on a success response the engine caches the body's `access_token` and
`expires_in`. -/
theorem C7_nonsuccess_caches_nothing (o : Nat → TokenResponse) (n : Nat)
    (s : EngineState)
    (h : s.access_token = none ∨ s.access_token_expires_in = none) :
    (engine_get_access_token o n s).2 = n + 1
    ∧ ((o n).status_code ≠ 200 →
        engine_get_access_token o n s = (⟨none, none⟩, n + 1))
    ∧ ((o n).status_code = 200 →
        engine_get_access_token o n s =
          (⟨(o n).access_token, (o n).expires_in⟩, n + 1))
    ∧ ∀ resp : TokenResponse, resp.status_code ≠ 200 →
        get_access_token_response resp = (none, none) := by
  have hc : (s.access_token.isNone || s.access_token_expires_in.isNone) = true := by
    rcases h with h | h <;> simp [h]
  refine ⟨?_, fun h500 => ?_, fun h200 => ?_, fun resp h500 => ?_⟩
  · rw [engine_get_access_token, if_pos hc]
  · rw [engine_get_access_token, if_pos hc]
    simp [get_access_token_response, h500]
  · rw [engine_get_access_token, if_pos hc]
    simp [get_access_token_response, h200]
  · simp [get_access_token_response, h500]

/-- Claim C7, witness: an incomplete cache and a 500 response. -/
theorem C7_nonsuccess_caches_nothing_witness :
    engine_get_access_token oFail 0 engineInit = (⟨none, none⟩, 0 + 1) :=
  (C7_nonsuccess_caches_nothing oFail 0 engineInit (Or.inl rfl)).2.1
    (by decide)

/-- Claim C8, counterexample: the first `list_products` (at time 0) acquires
token `"tok"` declared valid for 10 seconds; a `list_products` at time
1000000 — long past the declared validity — still sends the same token: the
engine never compares elapsed time with `expires_in`. -/
theorem C8_token_reused_past_validity :
    run_products oOk [0, 1000000] engineInit 0 =
      [(0, some "tok"), (1000000, some "tok")]
    ∧ 0 + 10 < 1000000 := by
  constructor
  · rfl
  · decide

/-- Claim C8 as amended: whenever both cache fields are set, every operation
(at any time — the engine never reads a clock) reuses the cached token with
no new token request and no expiry check: state and request count are
unchanged and the cached token is sent. -/
theorem C8_cached_token_always_reused (o : Nat → TokenResponse) (n : Nat)
    (a : String) (d : Nat) :
    list_products o n ⟨some a, some d⟩ = (⟨some a, some d⟩, n, some a)
    ∧ get_product o n ⟨some a, some d⟩ = (⟨some a, some d⟩, n, some a) := by
  constructor <;> rfl

/-- Claim C10: an operation issues a token request exactly when a cache field
is `None`; a failed acquisition leaves both fields `None` so the very next
operation issues a fresh request, and a success response lacking
`access_token` or `expires_in` likewise leaves the cache incomplete so the
next operation issues a fresh request. -/
theorem C10_token_request_iff_cache_incomplete (o : Nat → TokenResponse)
    (n : Nat) (s : EngineState) :
    ((engine_get_access_token o n s).2 = n + 1 ↔
      (s.access_token = none ∨ s.access_token_expires_in = none))
    ∧ (list_products o n s).2.1 = (engine_get_access_token o n s).2
    ∧ (get_product o n s).2.1 = (engine_get_access_token o n s).2
    ∧ ((s.access_token = none ∨ s.access_token_expires_in = none) →
        (o n).status_code ≠ 200 →
        (engine_get_access_token o n s).1 = ⟨none, none⟩)
    ∧ ((s.access_token = none ∨ s.access_token_expires_in = none) →
        ((o n).status_code ≠ 200 ∨ (o n).access_token = none ∨
          (o n).expires_in = none) →
        (engine_get_access_token o (n + 1)
          (engine_get_access_token o n s).1).2 = n + 2) := by
  by_cases h : s.access_token = none ∨ s.access_token_expires_in = none
  · have hc : (s.access_token.isNone || s.access_token_expires_in.isNone)
        = true := by rcases h with h | h <;> simp [h]
    refine ⟨⟨fun _ => h, fun _ => engine_count_of_incomplete o n s h⟩,
      rfl, rfl, fun _ h500 => ?_, fun _ hbad => ?_⟩
    · rw [engine_step_of_incomplete o n s hc]
      simp [get_access_token_response, h500]
    · rw [engine_step_of_incomplete o n s hc]
      refine engine_count_of_incomplete o (n + 1) _ ?_
      by_cases h200 : (o n).status_code = 200
      · rcases hbad with h500 | hat | hei
        · exact (h500 h200).elim
        · simp [get_access_token_response, h200, hat]
        · simp [get_access_token_response, h200, hei]
      · simp [get_access_token_response, h200]
  · have hc : (s.access_token.isNone || s.access_token_expires_in.isNone)
        = false := by
      cases hsa : s.access_token with
      | none => exact absurd (Or.inl hsa) h
      | some x =>
          cases hsb : s.access_token_expires_in with
          | none => exact absurd (Or.inr hsb) h
          | some y => simp [hsa, hsb]
    refine ⟨?_, rfl, rfl, fun hin => (h hin).elim, fun hin => (h hin).elim⟩
    rw [engine_get_access_token, if_neg (by simp [hc])]
    exact ⟨fun hn => absurd hn (by omega), fun hin => (h hin).elim⟩

end Integration
